import Mathlib

set_option maxRecDepth 100000

/-!
Verification development for the TPy transfer-learning repository.

The development shallowly embeds the three source files
(`TPy/estimator/_artl.py`, `TPy/transformer/_jda.py`,
`feature_adaptation/vda.py`) over exact rationals.  Matrices are
row-major lists of rows; a second embedding over a NaN-tracking value
type models the floating-point not-a-number dataflow of the kernel
matrices.  Library collaborators that live outside the provided sources
(`mmd_coef`, `lap_norm`, `base_init`, the label binarizer, the QP and
least-squares solvers, the generalized eigensolver and the kernel
evaluator) are either modelled from the specification text (marked
`Modelled from the spec`) or taken as explicit function parameters.
Python exceptions are modelled with an `Except` monad over `PyErr`.
-/

/-- Rows of rational numbers: the embedding of a 1-D numpy array. -/
abbrev Vec : Type := List ℚ

/-- Row-major rational matrices: the embedding of a 2-D numpy array. -/
abbrev Mat : Type := List (List ℚ)

/-- Inner product of two vectors (`np.dot` on 1-D arrays). -/
def dotQ (u v : Vec) : ℚ := (List.zipWith (fun a b => a * b) u v).sum

/-- Number of columns of a row-major matrix. -/
def ncols (A : Mat) : ℕ := (A.headD []).length

/-- Column `j` of a matrix. -/
def colGet (A : Mat) (j : ℕ) : Vec := A.map (fun r => r.getD j 0)

/-- Product of a matrix with a matrix given by its list of columns. -/
def matMulC (A : Mat) (Bcols : List Vec) : Mat :=
  A.map (fun r => Bcols.map (fun c => dotQ r c))

/-- Matrix product (`np.dot` / `multi_dot` on 2-D arrays). -/
def matMul (A B : Mat) : Mat := matMulC A ((List.range (ncols B)).map (colGet B))

/-- Entrywise sum of two matrices. -/
def matAdd (A B : Mat) : Mat := List.zipWith (List.zipWith (fun a b => a + b)) A B

/-- Entrywise difference of two matrices. -/
def matSub (A B : Mat) : Mat := List.zipWith (List.zipWith (fun a b => a - b)) A B

/-- Scalar multiple of a matrix. -/
def smulM (c : ℚ) (A : Mat) : Mat := A.map (List.map (fun x => c * x))

/-- Broadcast sum of a scalar with a matrix (`np.add(s, A)`). -/
def matAddScalar (s : ℚ) (A : Mat) : Mat := A.map (List.map (fun x => s + x))

/-- Identity matrix (`np.eye n`). -/
def eyeQ (n : ℕ) : Mat :=
  (List.range n).map (fun i => (List.range n).map (fun j => if i = j then (1 : ℚ) else 0))

/-- All-ones matrix (`np.ones`). -/
def onesM (n m : ℕ) : Mat := List.replicate n (List.replicate m (1 : ℚ))

/-- All-zeros matrix (`np.zeros`). -/
def zerosM (n m : ℕ) : Mat := List.replicate n (List.replicate m (0 : ℚ))

/-- Outer product of two vectors (`np.dot(e, e.T)` for column vectors). -/
def outerV (u v : Vec) : Mat := u.map (fun x => v.map (fun y => x * y))

/-- Transpose of a matrix. -/
def trM (A : Mat) : Mat := (List.range (ncols A)).map (colGet A)

/-- Kernel matrix between two sample sets from a kernel entry evaluator
(the shape of `sklearn.metrics.pairwise.pairwise_kernels`). -/
def pairwiseK (kf : Vec → Vec → ℚ) (A B : Mat) : Mat :=
  A.map (fun a => B.map (fun b => kf a b))

/-- The linear kernel entry evaluator: a plain inner product.  This is the
default kernel configuration of every driver (`kernel='linear'`). -/
def kfLin : Vec → Vec → ℚ := dotQ

/-- Embedding of the Python exceptions the sources can raise. -/
inductive PyErr
  | notFitted
  | attributeError (attr : String)
  | sysExit (msg : String)
  | zeroDivision
  | keyError
  | valueError (msg : String)
deriving DecidableEq

/-- Sorted distinct values of an integer list (`np.unique`). -/
def uniqueSorted (l : List ℤ) : List ℤ := (List.insertionSort (fun a b => a ≤ b) l).dedup

/-- Numpy truthiness of `arr.all()` on an integer array: every entry nonzero
(the empty array counts as all-true). -/
def npAll (l : List ℤ) : Bool := l.all (fun x => x != 0)

/-- Lexicographic comparison on (sort key, original position) pairs, used to
embed the deterministic result of `np.argsort`. -/
def rankLe (p q : ℚ × ℕ) : Prop := p.1 < q.1 ∨ (p.1 = q.1 ∧ p.2 ≤ q.2)

instance : DecidableRel rankLe := fun p q => by unfold rankLe; infer_instance

instance : IsTotal (ℚ × ℕ) rankLe := by
  constructor
  intro a b
  rcases lt_trichotomy a.1 b.1 with h | h | h
  · exact Or.inl (Or.inl h)
  · rcases Nat.le_total a.2 b.2 with h2 | h2
    · exact Or.inl (Or.inr ⟨h, h2⟩)
    · exact Or.inr (Or.inr ⟨h.symm, h2⟩)
  · exact Or.inr (Or.inl h)

instance : IsTrans (ℚ × ℕ) rankLe := by
  constructor
  intro a b c hab hbc
  rcases hab with h1 | ⟨e1, l1⟩
  · rcases hbc with h2 | ⟨e2, _⟩
    · exact Or.inl (h1.trans h2)
    · exact Or.inl (e2 ▸ h1)
  · rcases hbc with h2 | ⟨e2, l2⟩
    · exact Or.inl (e1 ▸ h2)
    · exact Or.inr ⟨e1.trans e2, l1.trans l2⟩

/-- Model of a complex scalar, used for the eigenvalues returned by the
external generalized eigensolver (`scipy.linalg.eig`). -/
abbrev Cq : Type := ℚ × ℚ

/-- Squared modulus of a model complex number; sorting by it is sorting by
`np.abs` of the eigenvalue. -/
def cabs2 (z : Cq) : ℚ := z.1 * z.1 + z.2 * z.2

/-- Embedding of `np.argsort` applied to the absolute values of an eigenvalue
list: the list of positions reordered so the absolute values ascend, ties
broken by position. -/
def argsortAbs (ev : List Cq) : List ℕ :=
  (List.insertionSort rankLe
    ((List.range ev.length).map (fun i => (cabs2 (ev.getD i (0, 0)), i)))).map (fun p => p.2)

/-- Modelled from the spec: the missing `TPy.utils.mmd_coef` builder has two
kinds; this enumerates them (spec section 4.2). -/
inductive MmdKind
  | marginal
  | joint
deriving DecidableEq

/-- Modelled from the spec: the two-sample weight vector of the marginal MMD
term, `+1/ns` on source rows and `-1/nt` on target rows (spec section 4.2). -/
def mmdMarginalVec (ns nt : ℕ) : Vec :=
  List.replicate ns (1 / (ns : ℚ)) ++ List.replicate nt (-(1 / (nt : ℚ)))

/-- Modelled from the spec: the marginal MMD coefficient matrix, weight
`+1/ns²` within the source block, `+1/nt²` within the target block and
`-1/(ns·nt)` across blocks (spec section 4.2). -/
def mmdMarginal (ns nt : ℕ) : Mat :=
  outerV (mmdMarginalVec ns nt) (mmdMarginalVec ns nt)

/-- Modelled from the spec: the class-restricted weight vector of the
conditional MMD term for class `c`; only the first `yt.length` target rows
are labelled (spec sections 3 and 4.2). -/
def mmdClassVec (ns nt : ℕ) (ys yt : List ℤ) (c : ℤ) : Vec :=
  let cs : ℚ := (ys.countP (fun l => l == c) : ℚ)
  let ct : ℚ := (yt.countP (fun l => l == c) : ℚ)
  ys.map (fun l => if l = c then 1 / cs else 0)
    ++ (List.range nt).map
      (fun i => if i < yt.length ∧ yt.getD i 0 = c then -(1 / ct) else 0)

/-- Modelled from the spec: the conditional MMD coefficient matrix, the sum
over classes present in the union of the labels of the class-restricted
marginal weighting, skipping classes with no labelled target row
(spec section 4.2). -/
def mmdConditional (ns nt : ℕ) (ys yt : List ℤ) : Mat :=
  (ys ++ yt).dedup.foldl
    (fun acc c =>
      if yt.countP (fun l => l == c) ≠ 0 then
        matAdd acc (outerV (mmdClassVec ns nt ys yt c) (mmdClassVec ns nt ys yt c))
      else acc)
    (zerosM (ns + nt) (ns + nt))

/-- Modelled from the spec: the missing `TPy.utils.mmd_coef` collaborator.
The additive combination scheme is used: `M = marginal + mu * conditional`,
so `mu = 0` reduces to the marginal weighting (TCA) and `mu = 1` gives the
full joint weighting with equal contribution (JDA), as required by
spec section 4.2. -/
def mmd_coef (ns nt : ℕ) (ys yt : List ℤ) (kind : MmdKind) (mu : ℚ) : Mat :=
  match kind with
  | .marginal => mmdMarginal ns nt
  | .joint => matAdd (mmdMarginal ns nt) (smulM mu (mmdConditional ns nt ys yt))

/-- Modelled from the spec: the distance metrics of the k-nearest-neighbour
graph builder; two representative members of the configurable metric family
(spec section 4.3). -/
inductive MMetric
  | sqeuclidean
  | cityblock
deriving DecidableEq

/-- Modelled from the spec: the edge-weight modes of the k-nearest-neighbour
graph, binary connectivity or distance values (spec section 4.3). -/
inductive KnnMode
  | connectivity
  | distance
deriving DecidableEq

/-- Distance between two rows under a model metric. -/
def metricDist : MMetric → Vec → Vec → ℚ
  | .sqeuclidean, x, y => (List.zipWith (fun a b => (a - b) * (a - b)) x y).sum
  | .cityblock, x, y => (List.zipWith (fun a b => |a - b|) x y).sum

/-- Modelled from the spec: the `k` nearest other rows of row `i` under the
chosen metric, deterministic ties by row position (spec section 4.3). -/
def knnOf (X : Mat) (k : ℕ) (m : MMetric) (i : ℕ) : List ℕ :=
  ((List.insertionSort rankLe
    (((List.range X.length).filter (fun j => j ≠ i)).map
      (fun j => (metricDist m (X.getD i []) (X.getD j []), j)))).map (fun p => p.2)).take k

/-- Directed k-nearest-neighbour edge weight from row `i` to row `j`. -/
def knnWeight (X : Mat) (k : ℕ) (m : MMetric) (mode : KnnMode) (i j : ℕ) : ℚ :=
  if j ∈ knnOf X k m i then
    match mode with
    | .connectivity => 1
    | .distance => metricDist m (X.getD i []) (X.getD j [])
  else 0

/-- Modelled from the spec: the missing `TPy.utils.lap_norm` collaborator
(spec section 4.3): build the k-nearest-neighbour graph under the chosen
metric, weight edges by connectivity or distance per `mode`, symmetrize the
adjacency, and normalize by degree to produce the graph Laplacian
`I - D⁻¹ W` (rows of zero degree are left as the identity row). -/
def lap_norm (X : Mat) (k : ℕ) (m : MMetric) (mode : KnnMode) : Mat :=
  let n := X.length
  let w : ℕ → ℕ → ℚ := fun i j => max (knnWeight X k m mode i j) (knnWeight X k m mode j i)
  let deg : ℕ → ℚ := fun i => ((List.range n).map (w i)).sum
  (List.range n).map (fun i =>
    (List.range n).map (fun j =>
      (if i = j then (1 : ℚ) else 0) - (if deg i = 0 then 0 else w i j / deg i)))

/-- Classes of the fitted `sklearn.preprocessing.LabelBinarizer`: the sorted
distinct labels. -/
def lbClasses (y : List ℤ) : List ℤ := uniqueSorted y

/-- Embedding of `LabelBinarizer(pos_label=1, neg_label=-1).fit_transform`:
for two classes a single `±1` column (positive on the second class), otherwise
one `±1` indicator column per class. -/
def lbTransform (y : List ℤ) : Mat :=
  let cs := lbClasses y
  if cs.length = 2 then y.map (fun l => [if l = cs.getD 1 0 then (1 : ℚ) else -1])
  else y.map (fun l => cs.map (fun c => if l = c then (1 : ℚ) else -1))

/-- Position of the first maximal entry of a row (`np.argmax`). -/
def argmaxIdx (r : Vec) : ℕ :=
  (List.range r.length).foldl (fun best j => if r.getD best 0 < r.getD j 0 then j else best) 0

/-- Embedding of `LabelBinarizer.inverse_transform`: in the binary case a
positive score selects the second class, otherwise the class at the
row-wise score argmax. -/
def lbInverse (cs : List ℤ) (Y : Mat) : List ℤ :=
  if cs.length = 2 then
    Y.map (fun r => if 0 < r.getD 0 0 then cs.getD 1 0 else cs.getD 0 0)
  else Y.map (fun r => cs.getD (argmaxIdx r) 0)

/-- Embedding of `np.sign` on a scalar. -/
def signQ (x : ℚ) : ℚ := if 0 < x then 1 else if x < 0 then -1 else 0

/-- Modelled from the spec: the missing `TPy.utils.multiclass.score2pred`
collaborator, an argmax-style conversion of one-vs-rest score rows to `±1`
prediction rows (spec section 4.4). -/
def score2pred (S : Mat) : Mat :=
  S.map (fun r => (List.range r.length).map (fun j => if j = argmaxIdx r then (1 : ℚ) else -1))

/-- Result record of `_init_artl` (source lines 20-67): pooled data, pooled
labels, pooled kernel matrix, MMD matrix and identity matrix. -/
structure InitArtl where
  X : Mat
  y : List ℤ
  ker_x : Mat
  M : Mat
  unit_mat : Mat

/-- Embedding of `_init_artl` (source lines 49-67).  `mud` is the default
`mu` of the omitted `mu` argument in the `mmd_coef(ns, nt, ys, yt,
kind='joint')` call, a constant of the library outside the provided sources;
it is threaded as a parameter.  The NaN zeroing of line 64 is the identity
over exact rationals; its effect is modelled separately in the NaN-tracking
embedding below. -/
def init_artl (kf : Vec → Vec → ℚ) (mud : ℚ) (Xs : Mat) (ys : List ℤ)
    (Xt : Option Mat) (yt : Option (List ℤ)) : InitArtl :=
  let XM : Mat × Mat :=
    match Xt with
    | some Xt => (Xs ++ Xt, mmd_coef Xs.length Xt.length ys (yt.getD []) MmdKind.joint mud)
    | none => (Xs, zerosM Xs.length Xs.length)
  let y : List ℤ :=
    match yt with
    | some yt => ys ++ yt
    | none => ys
  let ker_x := pairwiseK kf XM.1 XM.1
  ⟨XM.1, y, ker_x, XM.2, eyeQ XM.1.length⟩

/-- Hyperparameters of `ARSVM.__init__` relevant to `fit` (solver and kernel
configuration are threaded as function parameters). -/
structure ARSVMCfg where
  C : ℚ
  lambda_ : ℚ
  gamma_ : ℚ
  k_neighbour : ℕ
  manifold_metric : MMetric
  knn_mode : KnnMode
deriving DecidableEq

/-- Fitted state written by `ARSVM.fit` (source lines 141-153). -/
structure ARSVMFitted where
  coef_ : Mat
  support_ : List ℕ
  X : Mat
  y : List ℤ
deriving DecidableEq

/-- Embedding of the objective matrix built by `ARSVM.fit` (source lines
135-139): `Q = I + (λM + γL)·K` when `gamma_ ≠ 0` and `Q = I + (λM)·K`
otherwise.  `lapDefault` is the default metric of the `lap_norm` call of
line 136, which passes no `metric` argument; it is a constant of the library
outside the provided sources and is threaded as a parameter. -/
def ARSVM_Q (kf : Vec → Vec → ℚ) (mud : ℚ) (lapDefault : MMetric) (cfg : ARSVMCfg)
    (Xs : Mat) (ys : List ℤ) (Xt : Option Mat) (yt : Option (List ℤ)) : Mat :=
  let o := init_artl kf mud Xs ys Xt yt
  if cfg.gamma_ ≠ 0 then
    matAdd o.unit_mat
      (matMul
        (matAdd (smulM cfg.lambda_ o.M)
          (smulM cfg.gamma_ (lap_norm o.X cfg.k_neighbour lapDefault cfg.knn_mode)))
        o.ker_x)
  else
    matAdd o.unit_mat (matMul (smulM cfg.lambda_ o.M) o.ker_x)

/-- Embedding of `ARSVM.fit` (source lines 115-155); the external
`_solve_semi_dual` quadratic-program solver is the parameter `solver`,
returning the coefficient matrix and the support list. -/
def ARSVM_fit (kf : Vec → Vec → ℚ) (solver : Mat → Mat → Mat → Mat × List ℕ) (mud : ℚ)
    (lapDefault : MMetric) (cfg : ARSVMCfg) (Xs : Mat) (ys : List ℤ)
    (Xt : Option Mat) (yt : Option (List ℤ)) : ARSVMFitted :=
  let o := init_artl kf mud Xs ys Xt yt
  let y_ := lbTransform o.y
  let Q_ := ARSVM_Q kf mud lapDefault cfg Xs ys Xt yt
  let cs := solver o.ker_x y_ Q_
  ⟨cs.1, cs.2, o.X, o.y⟩

/-- Embedding of `ARSVM.decision_function` (source lines 157-176): the
`check_is_fitted` guard raises `NotFittedError` on an unfitted instance,
otherwise the new-point kernel rows are multiplied by the stored
coefficients.  No NaN zeroing is applied to this kernel (line 174). -/
def ARSVM_decision (kf : Vec → Vec → ℚ) (st : Option ARSVMFitted) (X : Mat) :
    Except PyErr Mat :=
  match st with
  | none => .error .notFitted
  | some f => .ok (matMul (pairwiseK kf X f.X) f.coef_)

/-- Embedding of `ARSVM.predict` (source lines 178-197): sign of the decision
scores in the binary case, argmax conversion otherwise, then the label
binarizer inverse. -/
def ARSVM_predict (kf : Vec → Vec → ℚ) (st : Option ARSVMFitted) (X : Mat) :
    Except PyErr (List ℤ) :=
  match st with
  | none => .error .notFitted
  | some f =>
    (ARSVM_decision kf st X).map (fun dec =>
      let cs := lbClasses f.y
      let yp := if cs.length = 2 then dec.map (fun r => [signQ (r.getD 0 0)]) else score2pred dec
      lbInverse cs yp)

/-- Embedding of `ARSVM.fit_predict` (source lines 199-217): fit, then predict
on the pooled training matrix `self.X`. -/
def ARSVM_fit_predict (kf : Vec → Vec → ℚ) (solver : Mat → Mat → Mat → Mat × List ℕ)
    (mud : ℚ) (lapDefault : MMetric) (cfg : ARSVMCfg) (Xs : Mat) (ys : List ℤ)
    (Xt : Option Mat) (yt : Option (List ℤ)) : Except PyErr (List ℤ) :=
  let f := ARSVM_fit kf solver mud lapDefault cfg Xs ys Xt yt
  ARSVM_predict kf (some f) f.X

/-- Hyperparameters of `ARRLS.__init__` relevant to `fit`. -/
structure ARRLSCfg where
  lambda_ : ℚ
  gamma_ : ℚ
  sigma_ : ℚ
  k_neighbour : ℕ
  manifold_metric : MMetric
  knn_mode : KnnMode
deriving DecidableEq

/-- Fitted state `ARRLS.fit` would write (source lines 293-296). -/
structure ARRLSFitted where
  coef_ : Mat
  X : Mat
  y : List ℤ
deriving DecidableEq

/-- Embedding of `ARRLS.fit` (source lines 262-298).  After `_init_artl`,
line 279 evaluates `ker_x.shap[0]`; a numpy array has no attribute `shap`,
so the call raises `AttributeError` unconditionally.  The rest of the body
(the label-presence mask `J`, the objective `Q`, the `_solve_semi_ls` call
taken here as the parameter `solver`, and the state assignment) is
unreachable. -/
def ARRLS_fit (kf : Vec → Vec → ℚ) (solver : Mat → Mat → Mat) (mud : ℚ) (cfg : ARRLSCfg)
    (Xs : Mat) (ys : List ℤ) (Xt : Option Mat) (yt : Option (List ℤ)) :
    Except PyErr ARRLSFitted :=
  let _o := init_artl kf mud Xs ys Xt yt
  .error (.attributeError ("shap"))

/-- Embedding of `ARRLS.decision_function` (source lines 320-334): there is
no `check_is_fitted` guard, so an unfitted instance fails by reading the
absent attribute `self.X` (`AttributeError`).  No NaN zeroing is applied to
this kernel (lines 332-333). -/
def ARRLS_decision (kf : Vec → Vec → ℚ) (st : Option ARRLSFitted) (X : Mat) :
    Except PyErr Mat :=
  match st with
  | none => .error (.attributeError ("X"))
  | some f => .ok (matMul (pairwiseK kf X f.X) f.coef_)

/-- Embedding of `ARRLS.predict` (source lines 300-318). -/
def ARRLS_predict (kf : Vec → Vec → ℚ) (st : Option ARRLSFitted) (X : Mat) :
    Except PyErr (List ℤ) :=
  match st with
  | none => .error (.attributeError ("X"))
  | some f =>
    (ARRLS_decision kf st X).map (fun dec =>
      let cs := lbClasses f.y
      let yp := if cs.length = 2 then dec.map (fun r => [signQ (r.getD 0 0)]) else score2pred dec
      lbInverse cs yp)

/-- Embedding of `ARRLS.fit_predict` (source lines 336-354): fit, then predict
on `Xt`; predicting on an absent `Xt` would hand `None` to the kernel
evaluator, which raises. -/
def ARRLS_fit_predict (kf : Vec → Vec → ℚ) (solver : Mat → Mat → Mat) (mud : ℚ)
    (cfg : ARRLSCfg) (Xs : Mat) (ys : List ℤ) (Xt : Option Mat) (yt : Option (List ℤ)) :
    Except PyErr (List ℤ) :=
  (ARRLS_fit kf solver mud cfg Xs ys Xt yt).bind (fun f =>
    match Xt with
    | none => .error (.valueError ("predict on None"))
    | some Xt => ARRLS_predict kf (some f) Xt)

/-- Hyperparameters of `JDA.__init__` relevant to `fit` and `transform`. -/
structure JDACfg where
  n_components : ℕ
  lambda_ : ℚ
  mu : ℚ
deriving DecidableEq

/-- Fitted state written by `JDA.fit` (source lines 84-88): the reordered
eigenvector matrix (stored here by columns) and the training matrices.
The `np.asarray(U, dtype=np.float)` cast of line 86 is the identity in the
exact real model (the historical `np.float` alias is the builtin float). -/
structure JDAFitted where
  Ucols : List Vec
  Xs : Mat
  Xt : Option Mat
deriving DecidableEq

/-- Modelled from the spec: the missing `TPy.utils.base_init` collaborator
(spec section 4.6): the pooled kernel matrix (NaN-sanitized per section 4.1,
the identity over exact rationals), the identity matrix, the centering matrix
`H = I - (1/n)·ones(n,n)` and the pooled count. -/
def base_init (kf : Vec → Vec → ℚ) (X : Mat) : Mat × Mat × Mat × ℕ :=
  let n := X.length
  (pairwiseK kf X X, eyeQ n, matSub (eyeQ n) (smulM (1 / (n : ℚ)) (onesM n n)), n)

/-- Embedding of the pooled data and MMD matrix choice of `JDA.fit` (source
lines 59-70): with target data and both label vectors the joint MMD matrix
with the configured `mu`, with target data but missing labels the marginal
MMD matrix, and without target data the zero matrix. -/
def JDA_XL (cfg : JDACfg) (Xs : Mat) (ys : Option (List ℤ)) (Xt : Option Mat)
    (yt : Option (List ℤ)) : Mat × Mat :=
  match Xt with
  | some Xt =>
    if ys.isSome && yt.isSome then
      (Xs ++ Xt, mmd_coef Xs.length Xt.length (ys.getD []) (yt.getD []) MmdKind.joint cfg.mu)
    else (Xs ++ Xt, mmd_coef Xs.length Xt.length [] [] MmdKind.marginal 0)
  | none => (Xs, zerosM Xs.length Xs.length)

/-- Embedding of the optimization objective of `JDA.fit` (source line 75):
`K·L·Kᵀ + λI`. -/
def JDA_obj (kf : Vec → Vec → ℚ) (cfg : JDACfg) (Xs : Mat) (ys : Option (List ℤ))
    (Xt : Option Mat) (yt : Option (List ℤ)) : Mat :=
  let XL := JDA_XL cfg Xs ys Xt yt
  let b := base_init kf XL.1
  matAdd (matMul (matMul b.1 XL.2) (trM b.1)) (smulM cfg.lambda_ b.2.1)

/-- Embedding of the constraint matrix of `JDA.fit` (source line 77):
`K·H·Kᵀ`. -/
def JDA_st (kf : Vec → Vec → ℚ) (cfg : JDACfg) (Xs : Mat) (ys : Option (List ℤ))
    (Xt : Option Mat) (yt : Option (List ℤ)) : Mat :=
  let XL := JDA_XL cfg Xs ys Xt yt
  let b := base_init kf XL.1
  matMul (matMul b.1 b.2.2.1) (trM b.1)

/-- Result of the external generalized eigensolver call of `JDA.fit` (source
line 78): the eigenvalue list and the eigenvector matrix (eigenvectors are
the columns). -/
def JDA_eig (kf : Vec → Vec → ℚ) (eigS : Mat → Mat → List Cq × Mat) (cfg : JDACfg)
    (Xs : Mat) (ys : Option (List ℤ)) (Xt : Option Mat) (yt : Option (List ℤ)) :
    List Cq × Mat :=
  eigS (JDA_obj kf cfg Xs ys Xt yt) (JDA_st kf cfg Xs ys Xt yt)

/-- Embedding of `JDA.fit` (source lines 45-90); the external generalized
eigensolver `scipy.linalg.eig` is the parameter `eigS`.  Line 82 keeps the
full `argsort` of the absolute eigenvalues, so all eigenvectors are
retained, reordered ascending. -/
def JDA_fit (kf : Vec → Vec → ℚ) (eigS : Mat → Mat → List Cq × Mat) (cfg : JDACfg)
    (Xs : Mat) (ys : Option (List ℤ)) (Xt : Option Mat) (yt : Option (List ℤ)) :
    JDAFitted :=
  let p := JDA_eig kf eigS cfg Xs ys Xt yt
  ⟨(argsortAbs p.1).map (colGet p.2), Xs, Xt⟩

/-- Embedding of `JDA.transform` (source lines 92-110): the `check_is_fitted`
guards are commented out, so an unfitted instance fails reading the absent
attribute `self.Xs` (`AttributeError`); a fitted instance with no target data
fails in `np.vstack((self.Xs, None))` (`ValueError`); otherwise the kernel of
the new points against the pooled training set is multiplied by the first
`n_components` stored eigenvector columns.  No NaN zeroing is applied to this
kernel (line 108). -/
def JDA_transform (kf : Vec → Vec → ℚ) (cfg : JDACfg) (st : Option JDAFitted) (X : Mat) :
    Except PyErr Mat :=
  match st with
  | none => .error (.attributeError ("Xs"))
  | some f =>
    match f.Xt with
    | none => .error (.valueError ("vstack with None"))
    | some Xt => .ok (matMulC (pairwiseK kf X (f.Xs ++ Xt)) (f.Ucols.take cfg.n_components))

/-- Hyperparameters of `VDA.__init__`. -/
structure VDACfg where
  n_components : ℕ
  kernel_type : String
  lambda_ : ℚ
deriving DecidableEq

/-- Fitted state written by `VDA.fit` (source lines 130-131): the projection
components, stored as rows (the source stores `np.dot(X.T, W)` transposed). -/
structure VDAFitted where
  components_ : Mat
deriving DecidableEq

/-- Embedding of `VDA.get_L` (source lines 30-43): the outer product of the
vector with `1/ns` on source rows and `-1/nt` on target rows. -/
def VDA_get_L (ns nt : ℕ) : Mat :=
  outerV (List.replicate ns (1 / (ns : ℚ)) ++ List.replicate nt (-(1 / (nt : ℚ))))
    (List.replicate ns (1 / (ns : ℚ)) ++ List.replicate nt (-(1 / (nt : ℚ))))

/-- Embedding of `VDA.get_kernel` (source lines 45-58): unknown kernel names
exit fatally; otherwise the external kernel evaluator (parameter `kf`, the
model of `kernel_metrics()[kernel_type]`) is applied.  No NaN zeroing is
applied. -/
def VDA_get_kernel (kf : Vec → Vec → ℚ) (ktype : String) (X Y : Mat) : Except PyErr Mat :=
  if ktype = "linear" ∨ ktype = "rbf" ∨ ktype = "poly" then .ok (pairwiseK kf X Y)
  else .error (.sysExit ("Invalid kernel type!"))

/-- Embedding of the label-mismatch guard of `VDA.fit` (source line 77): the
source compares `np.unique(ys).all() != np.unique(yt).all()`, the numpy
truthiness of the two class arrays, not the class sets themselves. -/
def VDA_label_exit (ys yt : List ℤ) : Bool :=
  npAll (uniqueSorted ys) != npAll (uniqueSorted yt)

/-- Embedding of the within-class MMD loop of `VDA.fit` (source lines 85-93).
For each source class the source weight is `1/count`, raising
`ZeroDivisionError` when the count is zero (Python integer division by zero;
the `np.isinf` zeroing of line 92 is dead code since the division raises
first), and likewise `-1/count` on the target side. -/
def VDA_within_L (ys yt : List ℤ) (class_all : List ℤ) (L0 : Mat) : Except PyErr Mat :=
  class_all.foldlM
    (fun L c =>
      let cntS := ys.countP (fun l => l == c)
      let cntT := yt.countP (fun l => l == c)
      if cntS = 0 then .error .zeroDivision
      else if cntT = 0 then .error .zeroDivision
      else
        let e := ys.map (fun l => if l = c then 1 / (cntS : ℚ) else 0)
          ++ yt.map (fun l => if l = c then -(1 / (cntT : ℚ)) else 0)
        .ok (matAdd L (outerV e e)))
    L0

/-- Embedding of `np.mean(K[np.where(y == c), :])` (source line 106): the
scalar mean over all entries of the rows of class `c`, not a mean row. -/
def npMeanRows (K : Mat) (y : List ℤ) (c : ℤ) : ℚ :=
  let rows := ((List.range K.length).filter (fun i => y.getD i 0 == c)).map (fun i => K.getD i [])
  ((rows.map (fun r => r.sum)).sum) / ((rows.map (fun r => r.length)).sum : ℚ)

/-- Embedding of the `Sw` loop of `VDA.fit` (source lines 104-111).
`diff = K[i] - mean[y[i]]` subtracts the scalar class mean from the row;
`np.dot(diff.T, diff)` of two 1-D arrays is the scalar inner product, and
`np.add` broadcasts that scalar over the accumulator matrix.  Looking up
`mean[y[i]]` for a label outside `class_all` raises `KeyError` (the `mean`
dict is keyed by the source classes only). -/
def VDA_Sw (K : Mat) (y : List ℤ) (class_all : List ℤ) : Except PyErr Mat :=
  (List.range K.length).foldlM
    (fun Sw i =>
      let yi := y.getD i 0
      if yi ∈ class_all then
        let diff := (K.getD i []).map (fun v => v - npMeanRows K y yi)
        .ok (matAddScalar (dotQ diff diff) Sw)
      else .error .keyError)
    (zerosM K.length K.length)

/-- Embedding of `VDA.fit` (source lines 60-132); the external generalized
eigensolver is the parameter `eigS`.  The final `np.asarray(W, dtype=np.float)`
cast is the identity in the exact real model. -/
def VDA_fit (kf : Vec → Vec → ℚ) (eigS : Mat → Mat → List Cq × Mat) (cfg : VDACfg)
    (Xs Xt : Mat) (ys yt : List ℤ) : Except PyErr VDAFitted :=
  let X := Xs ++ Xt
  let n := X.length
  let class_all := uniqueSorted ys
  if VDA_label_exit ys yt then
    .error (.sysExit ("Source and target domain should have the same labels"))
  else
    let y := ys ++ yt
    let L0 := smulM (class_all.length : ℚ) (VDA_get_L Xs.length Xt.length)
    (if yt.length ≠ 0 ∧ yt.length = Xt.length then VDA_within_L ys yt class_all L0
     else .error (.sysExit ("Target domain data and label should have the same size!"))).bind
      (fun L =>
        (VDA_get_kernel kf cfg.kernel_type X X).bind (fun K =>
          (VDA_Sw K y class_all).bind (fun Sw =>
            let H := matSub (eyeQ n) (smulM (1 / (n : ℚ)) (onesM n n))
            let obj := matAdd (matAdd (matMul (matMul K L) (trM K)) (smulM cfg.lambda_ (eyeQ n))) Sw
            let st := matMul (matMul K H) (trM K)
            let p := eigS obj st
            let Wcols := ((argsortAbs p.1).take cfg.n_components).map (colGet p.2)
            let components_ :=
              Wcols.map (fun w => (List.range (ncols X)).map (fun j => dotQ w (colGet X j)))
            .ok ⟨components_⟩)))

/-- Embedding of `VDA.transform` (source lines 134-142): `np.dot(X,
components_.T)`; an unfitted instance fails reading the absent attribute. -/
def VDA_transform (st : Option VDAFitted) (X : Mat) : Except PyErr Mat :=
  match st with
  | none => .error (.attributeError ("components_"))
  | some f => .ok (matMulC X f.components_)

/-- Value type tracking the floating-point not-a-number state of a kernel
entry: either an exact value or NaN. -/
inductive RVal
  | nan
  | q (x : ℚ)
deriving DecidableEq

/-- NaN-propagating addition. -/
def rvAdd : RVal → RVal → RVal
  | .q a, .q b => .q (a + b)
  | _, _ => .nan

/-- NaN-propagating multiplication. -/
def rvMul : RVal → RVal → RVal
  | .q a, .q b => .q (a * b)
  | _, _ => .nan

/-- Rows over NaN-tracking values. -/
abbrev RVec : Type := List RVal

/-- Matrices over NaN-tracking values. -/
abbrev RMat : Type := List (List RVal)

/-- NaN-propagating inner product. -/
def dotRV (u v : RVec) : RVal := (List.zipWith rvMul u v).foldl rvAdd (.q 0)

/-- Kernel matrix from a NaN-tracking kernel entry evaluator. -/
def pairwiseRV (kf : RVec → RVec → RVal) (A B : RMat) : RMat :=
  A.map (fun a => B.map (fun b => kf a b))

/-- Embedding of `ker_x[np.isnan(ker_x)] = 0`: every NaN entry replaced
with zero. -/
def nanToZero (K : RMat) : RMat :=
  K.map (List.map (fun v =>
    match v with
    | .nan => .q 0
    | w => w))

/-- Whether a matrix holds no NaN entry. -/
def nanFreeB (K : RMat) : Bool := K.all (fun r => r.all (fun v => v != RVal.nan))

/-- NaN dataflow of the pooled training kernel of `_init_artl` (source lines
63-64): the raw kernel followed by the NaN zeroing. -/
def init_artl_ker (kf : RVec → RVec → RVal) (X : RMat) : RMat := nanToZero (pairwiseRV kf X X)

/-- NaN dataflow of the inference kernel of `ARSVM.decision_function` (source
lines 174-176): the raw kernel is used directly, with no NaN zeroing. -/
def ARSVM_decision_ker (kf : RVec → RVec → RVal) (X Xfit : RMat) : RMat := pairwiseRV kf X Xfit

/-- NaN dataflow of the inference kernel of `ARRLS.decision_function` (source
lines 332-334): no NaN zeroing. -/
def ARRLS_decision_ker (kf : RVec → RVec → RVal) (X Xfit : RMat) : RMat := pairwiseRV kf X Xfit

/-- NaN dataflow of the inference kernel of `JDA.transform` (source line
108): no NaN zeroing. -/
def JDA_transform_ker (kf : RVec → RVec → RVal) (X Xfit : RMat) : RMat := pairwiseRV kf X Xfit

/-- NaN dataflow of `VDA.get_kernel` (source lines 45-58): the kernel-name
guard, then the raw kernel with no NaN zeroing. -/
def VDA_kernel_rv (kf : RVec → RVec → RVal) (ktype : String) (X Y : RMat) :
    Except PyErr RMat :=
  if ktype = "linear" ∨ ktype = "rbf" ∨ ktype = "poly" then .ok (pairwiseRV kf X Y)
  else .error (.sysExit ("Invalid kernel type!"))

/-- Modelled from the spec: an entry evaluator of a normalized kernel family
(spec section 4.1): on degenerate inputs (zero vectors) the entry evaluates
to not-a-number; on other inputs it is a finite similarity score (the model
returns the raw inner product as the score). -/
def normKernelEntry (x y : RVec) : RVal :=
  if dotRV x x = RVal.q 0 ∨ dotRV y y = RVal.q 0 then .nan else dotRV x y

instance {ε : Type u} {α : Type v} [DecidableEq ε] [DecidableEq α] : DecidableEq (Except ε α) :=
  fun a b =>
    match a, b with
    | .error e, .error f =>
      match decEq e f with
      | isTrue h => isTrue (by rw [h])
      | isFalse h => isFalse (fun hh => h (by cases hh; rfl))
    | .ok x, .ok y =>
      match decEq x y with
      | isTrue h => isTrue (by rw [h])
      | isFalse h => isFalse (fun hh => h (by cases hh; rfl))
    | .error _, .ok _ => isFalse (fun hh => Except.noConfusion hh)
    | .ok _, .error _ => isFalse (fun hh => Except.noConfusion hh)

/-- Statement of claim C2 over the embedding: the objective matrix built by
`ARSVM.fit` equals `I + K·(λM + γL)`, the kernel multiplied on the right by
the weighted regularizer sum (with the `γL` term dropped when `gamma_ = 0`). -/
def claimC2 : Prop :=
  ∀ (mud : ℚ) (lapDefault : MMetric) (cfg : ARSVMCfg) (Xs : Mat) (ys : List ℤ)
    (Xt : Option Mat) (yt : Option (List ℤ)),
    ARSVM_Q kfLin mud lapDefault cfg Xs ys Xt yt =
      (if cfg.gamma_ ≠ 0 then
        matAdd (init_artl kfLin mud Xs ys Xt yt).unit_mat
          (matMul (init_artl kfLin mud Xs ys Xt yt).ker_x
            (matAdd (smulM cfg.lambda_ (init_artl kfLin mud Xs ys Xt yt).M)
              (smulM cfg.gamma_
                (lap_norm (init_artl kfLin mud Xs ys Xt yt).X cfg.k_neighbour
                  cfg.manifold_metric cfg.knn_mode))))
      else
        matAdd (init_artl kfLin mud Xs ys Xt yt).unit_mat
          (matMul (init_artl kfLin mud Xs ys Xt yt).ker_x
            (smulM cfg.lambda_ (init_artl kfLin mud Xs ys Xt yt).M)))

/-- Statement of claim C5 over the embedding: every unfitted inference entry
point fails with the explicit unfitted-model error (`NotFittedError`). -/
def claimC5 : Prop :=
  (∀ X : Mat, ARSVM_decision kfLin none X = .error .notFitted)
  ∧ (∀ X : Mat, ARSVM_predict kfLin none X = .error .notFitted)
  ∧ (∀ X : Mat, ARRLS_decision kfLin none X = .error .notFitted)
  ∧ (∀ X : Mat, ARRLS_predict kfLin none X = .error .notFitted)
  ∧ (∀ (cfg : JDACfg) (X : Mat), JDA_transform kfLin cfg none X = .error .notFitted)
  ∧ (∀ X : Mat, VDA_transform none X = .error .notFitted)

/-- Statement of claim C6 over the NaN-tracking embedding: every kernel
matrix the drivers compute has its NaN entries replaced with zero before
use. -/
def claimC6 : Prop :=
  (∀ (kf : RVec → RVec → RVal) (X : RMat), nanFreeB (init_artl_ker kf X) = true)
  ∧ (∀ (kf : RVec → RVec → RVal) (X Xfit : RMat),
      nanFreeB (ARSVM_decision_ker kf X Xfit) = true)
  ∧ (∀ (kf : RVec → RVec → RVal) (X Xfit : RMat),
      nanFreeB (ARRLS_decision_ker kf X Xfit) = true)
  ∧ (∀ (kf : RVec → RVec → RVal) (X Xfit : RMat),
      nanFreeB (JDA_transform_ker kf X Xfit) = true)
  ∧ (∀ (kf : RVec → RVec → RVal) (ktype : String) (X Y K : RMat),
      VDA_kernel_rv kf ktype X Y = .ok K → nanFreeB K = true)

/-- Statement of claim C7 over the embedding: with `Xt = None` the MMD matrix
is the `ns×ns` zero matrix, every fit succeeds, and every subsequent
inference call succeeds. -/
def claimC7 : Prop :=
  (∀ (mud : ℚ) (Xs : Mat) (ys : List ℤ),
      (init_artl kfLin mud Xs ys none none).M = zerosM Xs.length Xs.length)
  ∧ (∀ (solver : Mat → Mat → Mat) (mud : ℚ) (cfg : ARRLSCfg) (Xs : Mat) (ys : List ℤ),
      ∃ f, ARRLS_fit kfLin solver mud cfg Xs ys none none = .ok f)
  ∧ (∀ (eigS : Mat → Mat → List Cq × Mat) (cfg : JDACfg) (Xs X : Mat),
      ∃ R, JDA_transform kfLin cfg (some (JDA_fit kfLin eigS cfg Xs none none none)) X = .ok R)

/-- Statement of claim C8 over the embedding: whenever `gamma_ ≠ 0`, ARSVM
builds its graph Laplacian under the configured `manifold_metric` (together
with the configured neighbour count and mode), and ARRLS's fit reaches its
Laplacian construction at all. -/
def claimC8 : Prop :=
  (∀ (mud : ℚ) (lapDefault : MMetric) (cfg : ARSVMCfg) (Xs : Mat) (ys : List ℤ)
      (Xt : Option Mat) (yt : Option (List ℤ)),
    cfg.gamma_ ≠ 0 →
      ARSVM_Q kfLin mud lapDefault cfg Xs ys Xt yt =
        matAdd (init_artl kfLin mud Xs ys Xt yt).unit_mat
          (matMul
            (matAdd (smulM cfg.lambda_ (init_artl kfLin mud Xs ys Xt yt).M)
              (smulM cfg.gamma_
                (lap_norm (init_artl kfLin mud Xs ys Xt yt).X cfg.k_neighbour
                  cfg.manifold_metric cfg.knn_mode)))
            (init_artl kfLin mud Xs ys Xt yt).ker_x))
  ∧ (∀ (solver : Mat → Mat → Mat) (mud : ℚ) (cfg : ARRLSCfg) (Xs : Mat) (ys : List ℤ)
      (Xt : Option Mat) (yt : Option (List ℤ)),
      cfg.gamma_ ≠ 0 → ∃ f, ARRLS_fit kfLin solver mud cfg Xs ys Xt yt = .ok f)

/-- The no-adaptation configuration of the specification (section 4.2 and
section 8): the ARSVM training pipeline run on the source data alone with the
MMD matrix `M` fixed to the zero matrix. -/
def ARSVM_fit_noadapt (kf : Vec → Vec → ℚ) (solver : Mat → Mat → Mat → Mat × List ℕ)
    (lapDefault : MMetric) (cfg : ARSVMCfg) (Xs : Mat) (ys : List ℤ) : ARSVMFitted :=
  let X := Xs
  let y := ys
  let ker_x := pairwiseK kf X X
  let unit_mat := eyeQ X.length
  let M := zerosM X.length X.length
  let y_ := lbTransform y
  let Q_ :=
    if cfg.gamma_ ≠ 0 then
      matAdd unit_mat
        (matMul
          (matAdd (smulM cfg.lambda_ M)
            (smulM cfg.gamma_ (lap_norm X cfg.k_neighbour lapDefault cfg.knn_mode)))
          ker_x)
    else matAdd unit_mat (matMul (smulM cfg.lambda_ M) ker_x)
  let cs := solver ker_x y_ Q_
  ⟨cs.1, cs.2, X, y⟩

/-- The mean kernel row of the samples sharing class `c`, as described by
claim C3. -/
def meanKernelRow (K : Mat) (y : List ℤ) (c : ℤ) : Vec :=
  let idxs := (List.range K.length).filter (fun i => y.getD i 0 == c)
  (idxs.foldl (fun acc i => List.zipWith (fun a b => a + b) acc (K.getD i []))
    (List.replicate (ncols K) (0 : ℚ))).map (fun v => v / (idxs.length : ℚ))

/-- The within-class scatter construction as claim C3 describes it: the
deviation of each kernel row from the mean kernel row of its class,
accumulated as a sum of outer products. -/
def VDA_Sw_asClaimed (K : Mat) (y : List ℤ) : Mat :=
  (List.range K.length).foldl
    (fun Sw i =>
      let diff := List.zipWith (fun a b => a - b) (K.getD i [])
        (meanKernelRow K y (y.getD i 0))
      matAdd Sw (outerV diff diff))
    (zerosM K.length K.length)

/-- Pooled sample matrix of the concrete C3 input (`Xs = [[1,0],[0,1]]`,
`Xt = [[2,0],[0,3]]`). -/
def vdaC3X : Mat := [[1, 0], [0, 1], [2, 0], [0, 3]]

/-- A trivial concrete stand-in for the external generalized eigensolver:
all eigenvalues zero, eigenvectors the identity. -/
def eigTrivial : Mat → Mat → List Cq × Mat :=
  fun a _ => (a.map (fun _ => ((0 : ℚ), (0 : ℚ))), eyeQ a.length)

/-- A trivial concrete stand-in for the external `_solve_semi_dual` solver:
the binarized labels as coefficients, empty support. -/
def qpTrivial : Mat → Mat → Mat → Mat × List ℕ := fun _ yb _ => (yb, [])

/-- Concrete eigensolver stand-in for the C9 witness: eigenvalues `2` and
`1` (moduli out of order), identity eigenvectors. -/
def jdaWeigS : Mat → Mat → List Cq × Mat :=
  fun _ _ => ([((2 : ℚ), (0 : ℚ)), ((1 : ℚ), (0 : ℚ))], [[(1 : ℚ), 0], [0, 1]])

/-- Configuration of the C9 witness. -/
def jdaWcfg : JDACfg := ⟨1, 1, 1⟩

/-- Eigensolver output of the C9 witness pipeline. -/
def jdaWe : List Cq × Mat := JDA_eig kfLin jdaWeigS jdaWcfg [[1]] none (some [[2]]) none

/-- Fitted state of the C9 witness pipeline. -/
def jdaWf : JDAFitted := JDA_fit kfLin jdaWeigS jdaWcfg [[1]] none (some [[2]]) none

theorem argsortAbs_perm (ev : List Cq) : List.Perm (argsortAbs ev) (List.range ev.length) := by
  unfold argsortAbs
  have h :=
    (List.perm_insertionSort rankLe
      ((List.range ev.length).map (fun i => (cabs2 (ev.getD i (0, 0)), i)))).map
      (fun p : ℚ × ℕ => p.2)
  rw [List.map_map] at h
  simpa [Function.comp_def] using h

theorem argsortAbs_sorted (ev : List Cq) :
    List.Sorted (fun a b => a ≤ b)
      ((argsortAbs ev).map (fun i => cabs2 (ev.getD i (0, 0)))) := by
  unfold argsortAbs
  rw [List.map_map]
  have hs := List.sorted_insertionSort rankLe
    ((List.range ev.length).map (fun i => (cabs2 (ev.getD i (0, 0)), i)))
  have hmem : ∀ p ∈ List.insertionSort rankLe
      ((List.range ev.length).map (fun i => (cabs2 (ev.getD i (0, 0)), i))),
      cabs2 (ev.getD p.2 (0, 0)) = p.1 := by
    intro p hp
    have hp2 : p ∈ (List.range ev.length).map (fun i => (cabs2 (ev.getD i (0, 0)), i)) :=
      (List.perm_insertionSort rankLe _).subset hp
    obtain ⟨i, _, rfl⟩ := List.mem_map.mp hp2
    rfl
  have hs2 : List.Pairwise
      (fun p q : ℚ × ℕ => cabs2 (ev.getD p.2 (0, 0)) ≤ cabs2 (ev.getD q.2 (0, 0)))
      (List.insertionSort rankLe
        ((List.range ev.length).map (fun i => (cabs2 (ev.getD i (0, 0)), i)))) := by
    refine List.Pairwise.imp_of_mem ?_ hs
    intro a b ha hb hab
    rw [hmem a ha, hmem b hb]
    rcases hab with h | h
    · exact le_of_lt h
    · exact le_of_eq h.1
  exact (List.pairwise_map).mpr hs2

theorem nanFreeB_nanToZero (K : RMat) : nanFreeB (nanToZero K) = true := by
  unfold nanFreeB nanToZero
  rw [List.all_eq_true]
  intro r hr
  rw [List.mem_map] at hr
  obtain ⟨r0, _, rfl⟩ := hr
  rw [List.all_eq_true]
  intro v hv
  rw [List.mem_map] at hv
  obtain ⟨v0, _, rfl⟩ := hv
  cases v0 <;> rfl

theorem length_matMulC (A : Mat) (B : List Vec) : (matMulC A B).length = A.length :=
  List.length_map _ _

theorem length_matMul (A B : Mat) : (matMul A B).length = A.length :=
  length_matMulC _ _

theorem length_pairwiseK (kf : Vec → Vec → ℚ) (A B : Mat) :
    (pairwiseK kf A B).length = A.length :=
  List.length_map _ _

theorem length_score2pred (S : Mat) : (score2pred S).length = S.length :=
  List.length_map _ _

theorem length_lbInverse (cs : List ℤ) (Y : Mat) : (lbInverse cs Y).length = Y.length := by
  unfold lbInverse
  split <;> exact List.length_map _ _

theorem ARSVM_predict_pooled_length (kf : Vec → Vec → ℚ) (f : ARSVMFitted) (X : Mat) :
    ∃ l, ARSVM_predict kf (some f) X = .ok l ∧ l.length = X.length := by
  refine ⟨_, rfl, ?_⟩
  show (lbInverse (lbClasses f.y)
      (if (lbClasses f.y).length = 2 then
        (matMul (pairwiseK kf X f.X) f.coef_).map (fun r => [signQ (r.getD 0 0)])
      else score2pred (matMul (pairwiseK kf X f.X) f.coef_))).length = X.length
  rw [length_lbInverse]
  split
  · rw [List.length_map, length_matMul, length_pairwiseK]
  · rw [length_score2pred, length_matMul, length_pairwiseK]

/-- C1: the claim states that `ARRLS.fit` assembles the label-presence mask
`J`, forms `Q = (J + λM + γL)·K + σI`, solves the linear system and returns
`self` without raising.  In the source, line 279 reads `ker_x.shap[0]` — a
numpy array has no attribute `shap` — so for every input `fit` raises
`AttributeError` right after `_init_artl` and never assembles `J`, `Q` or the
solution. -/
theorem arrls_fit_raises (kf : Vec → Vec → ℚ) (solver : Mat → Mat → Mat) (mud : ℚ)
    (cfg : ARRLSCfg) (Xs : Mat) (ys : List ℤ) (Xt : Option Mat) (yt : Option (List ℤ)) :
    ARRLS_fit kf solver mud cfg Xs ys Xt yt = .error (.attributeError ("shap")) := rfl

/-- C2 counterexample: claim C2 states `Q = I + K·(λM + γL)`, the kernel
multiplied on the right by the regularizer sum; at a concrete input the
objective built by `ARSVM.fit` (which is `I + (λM)·K` for `gamma_ = 0`)
differs from `I + K·(λM)`. -/
theorem arsvm_q_order_cex : ¬ claimC2 := by
  intro h
  exact absurd
    (h 1 MMetric.sqeuclidean ⟨1, 1, 0, 5, MMetric.sqeuclidean, KnnMode.distance⟩
      [[1, 0]] [0] (some [[0, 2]]) (some [0]))
    (by with_unfolding_all decide)

/-- C2 amended: the objective matrix passed to the quadratic-program solver
is `Q = I + (λM + γL)·K` — the weighted sum of the MMD matrix and the
Laplacian multiplied on the right by the pooled kernel matrix — with the
`γL` term dropped when `gamma_ = 0`; the components are the pooled kernel,
the joint-kind MMD matrix of the pooled counts and the Laplacian of the
pooled data. -/
theorem arsvm_q_structure (kf : Vec → Vec → ℚ) (mud : ℚ) (lapDefault : MMetric)
    (cfg : ARSVMCfg) (Xs : Mat) (ys : List ℤ) (Xt : Mat) (yt : Option (List ℤ)) :
    ARSVM_Q kf mud lapDefault cfg Xs ys (some Xt) yt =
      (if cfg.gamma_ ≠ 0 then
        matAdd (eyeQ (Xs ++ Xt).length)
          (matMul
            (matAdd
              (smulM cfg.lambda_
                (mmd_coef Xs.length Xt.length ys (yt.getD []) MmdKind.joint mud))
              (smulM cfg.gamma_
                (lap_norm (Xs ++ Xt) cfg.k_neighbour lapDefault cfg.knn_mode)))
            (pairwiseK kf (Xs ++ Xt) (Xs ++ Xt)))
      else
        matAdd (eyeQ (Xs ++ Xt).length)
          (matMul
            (smulM cfg.lambda_
              (mmd_coef Xs.length Xt.length ys (yt.getD []) MmdKind.joint mud))
            (pairwiseK kf (Xs ++ Xt) (Xs ++ Xt)))) ∧
    ARSVM_Q kf mud lapDefault cfg Xs ys none yt =
      (if cfg.gamma_ ≠ 0 then
        matAdd (eyeQ Xs.length)
          (matMul
            (matAdd (smulM cfg.lambda_ (zerosM Xs.length Xs.length))
              (smulM cfg.gamma_ (lap_norm Xs cfg.k_neighbour lapDefault cfg.knn_mode)))
            (pairwiseK kf Xs Xs))
      else
        matAdd (eyeQ Xs.length)
          (matMul (smulM cfg.lambda_ (zerosM Xs.length Xs.length)) (pairwiseK kf Xs Xs))) :=
  ⟨rfl, rfl⟩

/-- C3: at the concrete input `Xs = [[1,0],[0,1]]`, `Xt = [[2,0],[0,3]]`,
`ys = [1,2]`, `yt = [1,2]` (pooled kernel `K`, pooled labels `[1,2,1,2]`),
the `Sw` built by `VDA.fit` is the constant matrix with every entry
`663/8` — `np.mean` over all class-row entries is a scalar and
`np.dot(diff.T, diff)` of 1-D arrays is a scalar inner product broadcast
over the accumulator — and it differs from the within-class scatter of
outer products of row deviations that the claim describes. -/
theorem vda_sw_scalar_bug :
    VDA_Sw (pairwiseK kfLin vdaC3X vdaC3X) [1, 2, 1, 2] (uniqueSorted [1, 2])
      = .ok (List.replicate 4 (List.replicate 4 ((663 : ℚ) / 8)))
    ∧ VDA_Sw (pairwiseK kfLin vdaC3X vdaC3X) [1, 2, 1, 2] (uniqueSorted [1, 2])
      ≠ .ok (VDA_Sw_asClaimed (pairwiseK kfLin vdaC3X vdaC3X) [1, 2, 1, 2]) := by
  with_unfolding_all decide

/-- C4: at the concrete input `ys = [1,2]`, `yt = [1,1]` the class sets
`{1,2}` and `{1}` differ, yet the guard of line 77 — which compares
`np.unique(ys).all() != np.unique(yt).all()`, the truthiness of the class
arrays — does not fire; `fit` proceeds past it, builds the marginal term,
and only fails later with `ZeroDivisionError` in the within-class loop
(class `2` has no target rows), not with the label-mismatch exit. -/
theorem vda_label_check_bug :
    uniqueSorted [1, 2] ≠ uniqueSorted [1, 1]
    ∧ VDA_label_exit [1, 2] [1, 1] = false
    ∧ VDA_fit kfLin eigTrivial ⟨1, "linear", 1⟩ [[1, 0], [0, 1]] [[1, 1], [2, 0]]
        [1, 2] [1, 1] = .error .zeroDivision := by
  with_unfolding_all decide

/-- C5 counterexample: the claim states every unfitted inference call fails
with the explicit unfitted-model error; `ARRLS.decision_function` has no
`check_is_fitted` guard and instead fails reading the absent attribute
`self.X`, an `AttributeError`. -/
theorem unfitted_error_kind_cex : ¬ claimC5 := by
  intro h
  have h3 := h.2.2.1 [[1]]
  have he : ARRLS_decision kfLin none [[1]] = .error (.attributeError ("X")) := rfl
  rw [he] at h3
  exact PyErr.noConfusion (Except.error.inj h3)

/-- C5 amended: every unfitted inference call fails with an exception rather
than returning a result, but only ARSVM raises the explicit `NotFittedError`;
ARRLS's `decision_function`/`predict`, JDA's `transform` (its
`check_is_fitted` lines are commented out) and VDA's `transform` raise
`AttributeError` from reading the absent fitted attribute. -/
theorem unfitted_calls_fail (kf : Vec → Vec → ℚ) (cfg : JDACfg) (X : Mat) :
    ARSVM_decision kf none X = .error .notFitted
    ∧ ARSVM_predict kf none X = .error .notFitted
    ∧ ARRLS_decision kf none X = .error (.attributeError ("X"))
    ∧ ARRLS_predict kf none X = .error (.attributeError ("X"))
    ∧ JDA_transform kf cfg none X = .error (.attributeError ("Xs"))
    ∧ VDA_transform none X = .error (.attributeError ("components_")) :=
  ⟨rfl, rfl, rfl, rfl, rfl, rfl⟩

/-- C6 counterexample: the claim states every kernel matrix the drivers
compute has NaN entries replaced with 0 before use; the inference kernel of
`ARSVM.decision_function` is used raw, and under a normalized kernel family
a degenerate (zero-vector) query row leaves a NaN entry in it. -/
theorem kernel_nan_cex : ¬ claimC6 := by
  intro h
  exact absurd (h.2.1 normKernelEntry [[RVal.q 0, RVal.q 0]] [[RVal.q 1, RVal.q 0]])
    (by with_unfolding_all decide)

/-- C6 amended: only the pooled training kernel of `_init_artl` is
NaN-sanitized; the inference kernels of `ARSVM.decision_function`,
`ARRLS.decision_function` and `JDA.transform` and every kernel of
`VDA.get_kernel` are used raw, and a degenerate input leaves NaN in them. -/
theorem kernel_nan_policy :
    (∀ (kf : RVec → RVec → RVal) (X : RMat), nanFreeB (init_artl_ker kf X) = true)
    ∧ nanFreeB (ARSVM_decision_ker normKernelEntry [[RVal.q 0, RVal.q 0]]
        [[RVal.q 1, RVal.q 0]]) = false
    ∧ nanFreeB (ARRLS_decision_ker normKernelEntry [[RVal.q 0, RVal.q 0]]
        [[RVal.q 1, RVal.q 0]]) = false
    ∧ nanFreeB (JDA_transform_ker normKernelEntry [[RVal.q 0, RVal.q 0]]
        [[RVal.q 1, RVal.q 0]]) = false
    ∧ (∀ (kf : RVec → RVec → RVal) (X Y : RMat),
        VDA_kernel_rv kf ("linear") X Y = .ok (pairwiseRV kf X Y)) := by
  refine ⟨?_, ?_, ?_, ?_, ?_⟩
  · intro kf X
    exact nanFreeB_nanToZero (pairwiseRV kf X X)
  · with_unfolding_all decide
  · with_unfolding_all decide
  · with_unfolding_all decide
  · intro kf X Y
    rfl

/-- C7 counterexample: the claim states that with `Xt = None` every driver
fits and every subsequent inference call succeeds; after `JDA.fit(Xs, ys)`
with no target data, `JDA.transform` fails in `np.vstack((self.Xs, None))`
(and `ARRLS.fit` already raises at the `shap` typo). -/
theorem no_target_inference_cex : ¬ claimC7 := by
  intro h
  obtain ⟨R, hR⟩ := h.2.2 eigTrivial ⟨1, 1, 1⟩ [[1]] [[1]]
  have he : JDA_transform kfLin ⟨1, 1, 1⟩
      (some (JDA_fit kfLin eigTrivial ⟨1, 1, 1⟩ [[1]] none none none)) [[1]]
      = .error (.valueError ("vstack with None")) := rfl
  rw [he] at hR
  exact Except.noConfusion hR

/-- C7 amended: for ARSVM the no-target path does hold — `_init_artl` with
`Xt = None` produces the `ns×ns` zero MMD matrix, `fit` equals the
spec's "M = 0, no adaptation" configuration trained on the source data
alone, and both decision function and prediction coincide; ARRLS's fit
raises at the `shap` typo and JDA's transform fails on the stacked `None`,
so the claim does not extend to every driver. -/
theorem arsvm_no_target_noadapt (kf : Vec → Vec → ℚ)
    (solver : Mat → Mat → Mat → Mat × List ℕ) (mud : ℚ) (lapDefault : MMetric)
    (cfg : ARSVMCfg) (Xs : Mat) (ys : List ℤ) :
    (init_artl kf mud Xs ys none none).M = zerosM Xs.length Xs.length
    ∧ ARSVM_fit kf solver mud lapDefault cfg Xs ys none none
        = ARSVM_fit_noadapt kf solver lapDefault cfg Xs ys
    ∧ (∀ X, ARSVM_decision kf (some (ARSVM_fit kf solver mud lapDefault cfg Xs ys none none)) X
        = ARSVM_decision kf (some (ARSVM_fit_noadapt kf solver lapDefault cfg Xs ys)) X)
    ∧ (∀ X, ARSVM_predict kf (some (ARSVM_fit kf solver mud lapDefault cfg Xs ys none none)) X
        = ARSVM_predict kf (some (ARSVM_fit_noadapt kf solver lapDefault cfg Xs ys)) X) := by
  have h2 : ARSVM_fit kf solver mud lapDefault cfg Xs ys none none
      = ARSVM_fit_noadapt kf solver lapDefault cfg Xs ys := rfl
  exact ⟨rfl, h2, fun X => by rw [h2], fun X => by rw [h2]⟩

/-- C8 counterexample: the `lap_norm` call of `ARSVM.fit` (line 136) does not
pass the configured `manifold_metric`, so two configurations differing only
in that metric build the same Laplacian, while the claim forces them to
build different ones on data whose nearest-neighbour graphs differ between
the metrics. -/
theorem arsvm_lap_metric_cex : ¬ claimC8 := by
  intro h
  exact absurd
    (h.1 1 MMetric.sqeuclidean ⟨1, 0, 1, 1, MMetric.cityblock, KnnMode.connectivity⟩
      [[0, 0], [2, 2]] [1, 2] (some [[3, 0]]) none (by with_unfolding_all decide))
    (by with_unfolding_all decide)

/-- C8 amended: when `gamma_ ≠ 0`, `ARSVM.fit` builds the Laplacian of the
pooled data with the configured `k_neighbour` and `knn_mode` but under the
library default metric — the fitted result is invariant under changes of
`manifold_metric` — while `ARRLS.fit` never reaches its Laplacian
construction because it raises at the `shap` typo first. -/
theorem arsvm_lap_metric_not_passed (kf : Vec → Vec → ℚ)
    (solver : Mat → Mat → Mat → Mat × List ℕ) (mud : ℚ) (lapDefault : MMetric)
    (Cp lam gam : ℚ) (k : ℕ) (m1 m2 : MMetric) (mode : KnnMode)
    (Xs : Mat) (ys : List ℤ) (Xt : Option Mat) (yt : Option (List ℤ)) :
    ARSVM_fit kf solver mud lapDefault ⟨Cp, lam, gam, k, m1, mode⟩ Xs ys Xt yt
      = ARSVM_fit kf solver mud lapDefault ⟨Cp, lam, gam, k, m2, mode⟩ Xs ys Xt yt
    ∧ ARSVM_Q kf mud lapDefault ⟨Cp, lam, gam, k, m1, mode⟩ Xs ys Xt yt
      = (if gam ≠ 0 then
          matAdd (init_artl kf mud Xs ys Xt yt).unit_mat
            (matMul
              (matAdd (smulM lam (init_artl kf mud Xs ys Xt yt).M)
                (smulM gam
                  (lap_norm (init_artl kf mud Xs ys Xt yt).X k lapDefault mode)))
              (init_artl kf mud Xs ys Xt yt).ker_x)
        else
          matAdd (init_artl kf mud Xs ys Xt yt).unit_mat
            (matMul (smulM lam (init_artl kf mud Xs ys Xt yt).M)
              (init_artl kf mud Xs ys Xt yt).ker_x))
    ∧ (∀ (solver2 : Mat → Mat → Mat) (acfg : ARRLSCfg),
        ARRLS_fit kf solver2 mud acfg Xs ys Xt yt = .error (.attributeError ("shap"))) :=
  ⟨rfl, rfl, fun _ _ => rfl⟩

/-- C9: `JDA.fit` stores the generalized eigenvectors reordered by ascending
absolute eigenvalue and retains all of them — the stored columns are the
`argsort` reordering of the eigensolver columns, a permutation of all of
them, with the absolute eigenvalues ascending along the stored order — and
`JDA.transform(X)` returns the kernel of `X` against the pooled training set
(source rows stacked above target rows) multiplied by the first
`n_components` stored columns. -/
theorem jda_sort_retain_transform (kf : Vec → Vec → ℚ) (eigS : Mat → Mat → List Cq × Mat)
    (cfg : JDACfg) (Xs Xt : Mat) (ys yt : Option (List ℤ))
    (hdim : (JDA_eig kf eigS cfg Xs ys (some Xt) yt).1.length
      = ncols (JDA_eig kf eigS cfg Xs ys (some Xt) yt).2) :
    (JDA_fit kf eigS cfg Xs ys (some Xt) yt).Ucols
      = (argsortAbs (JDA_eig kf eigS cfg Xs ys (some Xt) yt).1).map
          (colGet (JDA_eig kf eigS cfg Xs ys (some Xt) yt).2)
    ∧ List.Perm (JDA_fit kf eigS cfg Xs ys (some Xt) yt).Ucols
        ((List.range (ncols (JDA_eig kf eigS cfg Xs ys (some Xt) yt).2)).map
          (colGet (JDA_eig kf eigS cfg Xs ys (some Xt) yt).2))
    ∧ List.Sorted (fun a b => a ≤ b)
        ((argsortAbs (JDA_eig kf eigS cfg Xs ys (some Xt) yt).1).map
          (fun i => cabs2 ((JDA_eig kf eigS cfg Xs ys (some Xt) yt).1.getD i (0, 0))))
    ∧ (∀ X, JDA_transform kf cfg (some (JDA_fit kf eigS cfg Xs ys (some Xt) yt)) X
        = .ok (matMulC (pairwiseK kf X (Xs ++ Xt))
            ((JDA_fit kf eigS cfg Xs ys (some Xt) yt).Ucols.take cfg.n_components))) := by
  refine ⟨rfl, ?_, argsortAbs_sorted _, fun X => rfl⟩
  have h := (argsortAbs_perm (JDA_eig kf eigS cfg Xs ys (some Xt) yt).1).map
    (colGet (JDA_eig kf eigS cfg Xs ys (some Xt) yt).2)
  rw [hdim] at h
  exact h

/-- C9 witness: the theorem instantiated at a concrete pipeline whose
eigensolver returns eigenvalues `2, 1` (out of order) with identity
eigenvectors. -/
theorem jda_sort_retain_transform_witness :
    (jdaWe.1.length = ncols jdaWe.2)
    ∧ (jdaWf.Ucols = (argsortAbs jdaWe.1).map (colGet jdaWe.2)
      ∧ List.Perm jdaWf.Ucols ((List.range (ncols jdaWe.2)).map (colGet jdaWe.2))
      ∧ List.Sorted (fun a b => a ≤ b)
          ((argsortAbs jdaWe.1).map (fun i => cabs2 (jdaWe.1.getD i (0, 0))))
      ∧ JDA_transform kfLin jdaWcfg (some jdaWf) [[3]]
          = .ok (matMulC (pairwiseK kfLin [[3]] ([[1]] ++ [[2]]))
              (jdaWf.Ucols.take jdaWcfg.n_components))) := by
  have h := jda_sort_retain_transform kfLin jdaWeigS jdaWcfg [[1]] [[2]] none none
    (by with_unfolding_all decide)
  exact ⟨by with_unfolding_all decide, h.1, h.2.1, h.2.2.1, h.2.2.2 [[3]]⟩

/-- C10: `ARSVM.fit_predict` predicts on the pooled training matrix — it
always succeeds and its output length is `ns + nt` — whereas
`ARRLS.fit_predict` never returns predictions for `Xt` at all: its `fit`
call raises `AttributeError` at the `shap` typo for every input, with or
without `Xt`. -/
theorem fit_predict_asymmetry :
    (∀ (kf : Vec → Vec → ℚ) (solver : Mat → Mat → Mat → Mat × List ℕ) (mud : ℚ)
        (lapDefault : MMetric) (cfg : ARSVMCfg) (Xs : Mat) (ys : List ℤ) (Xt : Mat)
        (yt : Option (List ℤ)),
      ∃ l, ARSVM_fit_predict kf solver mud lapDefault cfg Xs ys (some Xt) yt = .ok l
        ∧ l.length = Xs.length + Xt.length)
    ∧ (∀ (kf : Vec → Vec → ℚ) (solver : Mat → Mat → Mat) (mud : ℚ) (cfg : ARRLSCfg)
        (Xs : Mat) (ys : List ℤ) (Xt : Option Mat) (yt : Option (List ℤ)),
        ARRLS_fit_predict kf solver mud cfg Xs ys Xt yt
          = .error (.attributeError ("shap")))
    ∧ ARSVM_fit_predict kfLin qpTrivial 1 MMetric.sqeuclidean
        ⟨1, 1, 0, 5, MMetric.sqeuclidean, KnnMode.distance⟩ [[1, 0]] [1]
        (some [[0, 1]]) (some [2]) = .ok [1, 2] := by
  refine ⟨?_, fun _ _ _ _ _ _ _ _ => rfl, by with_unfolding_all decide⟩
  intro kf solver mud lapDefault cfg Xs ys Xt yt
  obtain ⟨l, hl, hlen⟩ := ARSVM_predict_pooled_length kf
    (ARSVM_fit kf solver mud lapDefault cfg Xs ys (some Xt) yt)
    ((ARSVM_fit kf solver mud lapDefault cfg Xs ys (some Xt) yt).X)
  refine ⟨l, hl, ?_⟩
  have hX : (ARSVM_fit kf solver mud lapDefault cfg Xs ys (some Xt) yt).X = Xs ++ Xt := rfl
  rw [hX] at hlen
  rw [hlen, List.length_append]
